import Mathlib

/-!
Verification of the TimeTree-to-Discord notification pipeline.

Shallow embedding of `timetree_scraper.py` and `discord_notifier.py`.
A local instant (a Python `datetime` produced by
`datetime.fromtimestamp(ms / 1000)`) is represented by the exact number
`ms` of milliseconds since the epoch: the map `ms ↦ ms / 1000` seconds
is strictly monotone and injective, so comparisons, equality, and the
wall-clock fields of the `datetime` are all recoverable from `ms`.
HTTP traffic is modelled by explicit response values handed to the
functions that in the Python code perform the requests.
-/

/-- A local instant, as exact milliseconds since the epoch (see the
module docstring). The epoch instant is `0`. -/
abbrev Instant := Int

/-- A JSON value found in an event's `start_at` / `end_at` field.
`num ms` is a number of milliseconds since the epoch;
`malformed` stands for any truthy value on which
`datetime.fromtimestamp(v / 1000)` raises `TypeError` or `ValueError`
(for example a non-empty string). -/
inductive TsVal where
  | num (ms : Int)
  | malformed
deriving DecidableEq, Repr

/-- Python truthiness of a `start_at` / `end_at` value: the number `0`
is falsy, any other number is truthy, and a `malformed` value (a
non-empty string, say) is truthy. -/
def TsVal.truthy : TsVal → Bool
  | .num ms => ms != 0
  | .malformed => true

/-- Errors `datetime.fromtimestamp` may raise that the scraper catches. -/
inductive PyError where
  | typeOrValueError
deriving DecidableEq, Repr

/-- `datetime.fromtimestamp(v / 1000)` (timetree_scraper.py lines 169, 176,
220, 227): a number of `ms` milliseconds becomes the local instant
`ms / 1000` seconds since the epoch — represented by `ms` itself — and a
malformed value raises. -/
def TsVal.fromtimestampDiv1000 : TsVal → Except PyError Instant
  | .num ms => .ok ms
  | .malformed => .error .typeOrValueError

/-- A raw event record as found in the `events` array of a sync response.
`none` means the key is absent from the JSON object. -/
structure RawEvent where
  id : Option String := none
  title : Option String := none
  all_day : Option Bool := none
  location : Option String := none
  note : Option String := none
  label_id : Option Nat := none
  start_at : Option TsVal := none
  end_at : Option TsVal := none
deriving DecidableEq, Repr

/-- A canonical event after normalization (the dict built at
timetree_scraper.py lines 155-180). `start` / `end_` are local instants;
`none` stands both for an absent key and for an explicit `None` value,
which are indistinguishable through `.get`. -/
structure Event where
  id : Option String := none
  title : String := "Untitled"
  all_day : Bool := false
  location : Option String := none
  description : Option String := none
  color : Option Nat := none
  start : Option Instant := none
  end_ : Option Instant := none
deriving DecidableEq, Repr

/-- Normalization of one timestamp field (timetree_scraper.py lines
165-171 and 173-178): the guard `if ev.get("start_at"):` skips absent
and falsy values entirely, then the `try`/`except (TypeError, ValueError)`
turns a parse failure into `None`. -/
def normTs (v : Option TsVal) : Option Instant :=
  match v with
  | none => none
  | some tv =>
    if tv.truthy then
      match tv.fromtimestampDiv1000 with
      | .ok t => some t
      | .error _ => none
    else none

/-- Normalization of one raw event record (timetree_scraper.py lines
155-180, identical at lines 208-231). -/
def normalizeEvent (ev : RawEvent) : Event :=
  { id := ev.id
    title := ev.title.getD "Untitled"
    all_day := ev.all_day.getD false
    location := ev.location
    description := ev.note
    color := ev.label_id
    start := normTs ev.start_at
    end_ := normTs ev.end_at }

/-- Normalization of the whole `events` array of one response. -/
def normalizeBatch (evs : List RawEvent) : List Event :=
  evs.map normalizeEvent

/-- The parsed body of a sync response: the `events` array and the
optional `chunk` flag and `since` cursor. -/
structure SyncData where
  events : List RawEvent := []
  chunk : Option Bool := none
  since : Option Int := none
deriving DecidableEq, Repr

/-- Outcome of one sync HTTP call: `fail` covers a transport error
(`requests.RequestException`), a non-200 status and an unparseable body
(`ValueError` from `response.json()`), which the scraper treats alike;
`ok` carries the parsed body of a 200 response. -/
inductive SyncResp where
  | fail
  | ok (d : SyncData)
deriving DecidableEq, Repr

/-- Typed scraper errors (timetree_scraper.py lines 13-25). -/
inductive ScraperErr where
  | loginError
  | scraperError
  | calendarNotFound
deriving DecidableEq, Repr

/-- `TimeTreeScraper._get_events_recursive(calendar_id, since)`
(timetree_scraper.py lines 195-240), with the remaining server responses
given as a list consumed one per call (an exhausted list behaves as a
transport error). Returns the accumulated normalized events together
with the trace of `since` query parameters of the calls issued by this
invocation, its own first. Any failure of the call returns `[]` rather
than raising; recursion continues exactly when `data.get("chunk") is
True`, passing `data.get("since")` along unchecked. -/
def getEventsRecursive : Option Int → List SyncResp → List Event × List (Option Int)
  | since, [] => ([], [since])
  | since, .fail :: _ => ([], [since])
  | since, .ok d :: rest =>
    let evs := normalizeBatch d.events
    if d.chunk = some true then
      let r := getEventsRecursive d.since rest
      (evs ++ r.1, since :: r.2)
    else
      (evs, [since])

/-- `TimeTreeScraper.get_events` (timetree_scraper.py lines 123-193).
`first` is the outcome of the initial sync call and `rest` feeds the
continuation calls. A failed initial call raises `TimeTreeScraperError`;
otherwise the result pairs the accumulated events with the trace of
`since` parameters of the continuation calls issued. A continuation is
started only when `data.get("chunk") is True` and the `since` cursor is
truthy (present and nonzero). -/
def get_events (first : SyncResp) (rest : List SyncResp) :
    Except ScraperErr (List Event × List (Option Int)) :=
  match first with
  | .fail => .error .scraperError
  | .ok d =>
    let evs := normalizeBatch d.events
    if d.chunk = some true then
      match d.since with
      | some s =>
        if s ≠ 0 then
          let r := getEventsRecursive (some s) rest
          .ok (evs ++ r.1, r.2)
        else .ok (evs, [])
      | none => .ok (evs, [])
    else .ok (evs, [])

/-- The per-event inclusion test of `TimeTreeScraper.get_upcoming_events`
(timetree_scraper.py lines 272-283): the spec calls the loop
`filterByWindow`. A `datetime` is always truthy, so `if event_start:`
and `if event_end:` test presence only. -/
def inWindow (start_date end_date : Instant) (event : Event) : Bool :=
  match event.start with
  | none => false
  | some event_start =>
    if start_date ≤ event_start ∧ event_start < end_date then true
    else if event.all_day ∧ event_start ≤ end_date then
      match event.end_ with
      | some event_end => decide (start_date < event_end)
      | none => false
    else false

/-- `filterByWindow` — the filtering loop of `get_upcoming_events`
(timetree_scraper.py lines 271-285). -/
def filterByWindow (events : List Event) (start_date end_date : Instant) : List Event :=
  events.filter (inWindow start_date end_date)

/-- Number of whole seconds since the epoch of a local instant
(`datetime.fromtimestamp` floors fractional seconds into the
`microsecond` field, which no formatter below displays). -/
def instSeconds (t : Instant) : Int := t.fdiv 1000

/-- Days since the epoch of the civil date of a local instant. -/
def instDays (t : Instant) : Int := (instSeconds t).fdiv 86400

/-- The `hour` field of the local `datetime`. -/
def instHour (t : Instant) : Int := ((instSeconds t).fdiv 3600).emod 24

/-- The `minute` field of the local `datetime`. -/
def instMinute (t : Instant) : Int := ((instSeconds t).fdiv 60).emod 60

/-- Civil (proleptic Gregorian) date from days since the epoch:
`(year, month, day)`. -/
def civilFromDays (z0 : Int) : Int × Int × Int :=
  let z := z0 + 719468
  let era := z.fdiv 146097
  let doe := z - era * 146097
  let yoe := (doe - doe.fdiv 1460 + doe.fdiv 36524 - doe.fdiv 146096).fdiv 365
  let y := yoe + era * 400
  let doy := doe - (365 * yoe + yoe.fdiv 4 - yoe.fdiv 100)
  let mp := (5 * doy + 2).fdiv 153
  let d := doy - (153 * mp + 2).fdiv 5 + 1
  let m := if mp < 10 then mp + 3 else mp - 9
  (if m ≤ 2 then y + 1 else y, m, d)

/-- The `year` field of the local `datetime`. -/
def instYear (t : Instant) : Int := (civilFromDays (instDays t)).1

/-- The `month` field of the local `datetime`. -/
def instMonth (t : Instant) : Int := (civilFromDays (instDays t)).2.1

/-- The `day` field of the local `datetime`. -/
def instDay (t : Instant) : Int := (civilFromDays (instDays t)).2.2

/-- Python's `datetime.weekday()`: Monday is `0`; the epoch day
(1970-01-01) was a Thursday, weekday `3`. -/
def instWeekday (t : Instant) : Nat := ((instDays t + 3).emod 7).toNat

/-- Left-pad the decimal rendering of `n` with zeros to 2 digits
(`strftime` `%H`, `%M`, `%m`, `%d`). -/
def pad2 (n : Int) : String :=
  if 0 ≤ n ∧ n < 10 then "0" ++ toString n else toString n

/-- Left-pad the decimal rendering of `n` with zeros to 4 digits
(`strftime` `%Y`). -/
def pad4 (n : Int) : String :=
  if 0 ≤ n ∧ n < 10 then "000" ++ toString n
  else if 0 ≤ n ∧ n < 100 then "00" ++ toString n
  else if 0 ≤ n ∧ n < 1000 then "0" ++ toString n
  else toString n

/-- The weekday labels of `DiscordNotifier._format_date`
(discord_notifier.py line 29). -/
def weekdayNames : List String := ["月", "火", "水", "木", "金", "土", "日"]

/-- `DiscordNotifier._format_date` (discord_notifier.py lines 27-30). -/
def format_date (dt : Instant) : String :=
  toString (instMonth dt) ++ "月" ++ toString (instDay dt) ++ "日 ("
    ++ weekdayNames.getD (instWeekday dt) "" ++ ")"

/-- `DiscordNotifier._format_time` (discord_notifier.py lines 32-34):
`dt.strftime("%H:%M")`. -/
def format_time (dt : Instant) : String :=
  pad2 (instHour dt) ++ ":" ++ pad2 (instMinute dt)

/-- `dt.strftime("%Y/%m/%d %H:%M") + " 更新"`, the footer text built at
discord_notifier.py lines 74, 139, 146, 163, 170, 226. -/
def footerText (dt : Instant) : String :=
  pad4 (instYear dt) ++ "/" ++ pad2 (instMonth dt) ++ "/" ++ pad2 (instDay dt)
    ++ " " ++ pad2 (instHour dt) ++ ":" ++ pad2 (instMinute dt) ++ " 更新"

/-- `DiscordNotifier._format_event` (discord_notifier.py lines 36-54).
`if event.get("location"):` is a truthiness test, so an empty-string
location is skipped; `event.get("start") and event.get("end")` tests
presence only, a `datetime` being always truthy. -/
def format_event (event : Event) : String :=
  let line1 :=
    if event.all_day then
      "• 終日 - " ++ event.title
    else
      match event.start, event.end_ with
      | some s, some e => "• " ++ format_time s ++ " - " ++ format_time e ++ " " ++ event.title
      | _, _ => "• " ++ event.title
  match event.location with
  | some loc => if loc ≠ "" then line1 ++ "\n" ++ "  📍 " ++ loc else line1
  | none => line1

/-- The rendered text of one field: `"\n".join(self._format_event(e) for
e in events)` (discord_notifier.py lines 92, 127, 151). -/
def renderFieldText (events : List Event) : String :=
  String.intercalate "\n" (events.map format_event)

/-- The truncation step shared by `_create_embeds` and
`_create_daily_embeds` (discord_notifier.py lines 95-96, 128-129,
152-153): `if len(v) > 1024: v = v[:1020] + "..."`. -/
def truncateField (s : String) : String :=
  if s.length > 1024 then String.mk (s.data.take 1020) ++ "..." else s

/-- One entry of an embed's `fields` array. -/
structure EmbedField where
  name : String
  value : String
  inlined : Bool
deriving DecidableEq, Repr

/-- A Discord embed object; `none` / `[]` stand for keys the Python code
leaves out of the dict. -/
structure Embed where
  title : String
  description : Option String := none
  color : Nat
  fields : List EmbedField := []
  footer : String
deriving DecidableEq, Repr

/-- Discord blurple, the accent color of populated blocks
(discord_notifier.py lines 72, 133, 157). -/
def blurple : Nat := 0x5865F2

/-- Discord green, the color of empty-state blocks
(discord_notifier.py lines 145, 169, 225). -/
def discordGreen : Nat := 0x57F287

/-- `datetime.min` (year 1, January 1, midnight) as an instant, the sort
key substituted for an absent `start` at discord_notifier.py line 79. -/
def datetimeMin : Instant := -62135596800000

/-- The date bucket of an event in `_create_embeds` (discord_notifier.py
lines 80-83): the civil date of `start`, or today's date when `start` is
absent. -/
def dateKey (now : Instant) (e : Event) : Int :=
  match e.start with
  | some s => instDays s
  | none => instDays now

/-- `sorted(events, key=lambda e: e.get("start") or datetime.min)`
(discord_notifier.py line 79): a stable sort on the start instant, with
`datetime.min` for events with no start. -/
def sortedByStart (events : List Event) : List Event :=
  events.mergeSort (fun a b => a.start.getD datetimeMin ≤ b.start.getD datetimeMin)

/-- Append `e` to the bucket of key `k`, creating the bucket at the end
when absent — the insertion-ordered dict update of discord_notifier.py
lines 85-87. -/
def addToGroups : List (Int × List Event) → Int → Event → List (Int × List Event)
  | [], k, e => [(k, [e])]
  | (k0, es) :: rest, k, e =>
    if k0 = k then (k0, es ++ [e]) :: rest
    else (k0, es) :: addToGroups rest k e

/-- The `events_by_date` dict of `_create_embeds` (discord_notifier.py
lines 78-87), as an insertion-ordered association list. -/
def groupByDate (now : Instant) (events : List Event) : List (Int × List Event) :=
  (sortedByStart events).foldl (fun acc e => addToGroups acc (dateKey now e) e) []

/-- `sorted(events_by_date.items())` (discord_notifier.py line 90). -/
def sortedGroups (gs : List (Int × List Event)) : List (Int × List Event) :=
  gs.mergeSort (fun a b => a.1 ≤ b.1)

/-- `DiscordNotifier._create_embeds` (discord_notifier.py lines 56-105).
`now` stands for `datetime.now()`; a date bucket's header is formatted
from that date at midnight (`datetime.combine(date, datetime.min.time())`),
i.e. from the instant `day * 86400000`. -/
def create_embeds (now : Instant) (events : List Event) : List Embed :=
  if events = [] then []
  else
    [{ title := "📅 今週のTimeTree予定"
       color := blurple
       fields := (sortedGroups (groupByDate now events)).map (fun g =>
         { name := "🗓️ " ++ format_date (g.1 * 86400000)
           value := truncateField (renderFieldText g.2)
           inlined := false })
       footer := footerText now }]

/-- `DiscordNotifier._create_daily_embeds` (discord_notifier.py lines
107-173). Both footers use `current_date` (lines 139, 146, 163, 170). -/
def create_daily_embeds (today_events tomorrow_events : List Event)
    (current_date tomorrow_date : Instant) : List Embed :=
  let today_str := format_date current_date
  let tomorrow_str := format_date tomorrow_date
  let footer := footerText current_date
  let todayEmbed : Embed :=
    if today_events ≠ [] then
      { title := "📅 今日の予定 - " ++ today_str
        color := blurple
        fields := [{ name := "予定"
                     value := truncateField (renderFieldText today_events)
                     inlined := false }]
        footer := footer }
    else
      { title := "📅 今日の予定 - " ++ today_str
        description := some "**予定はありません**"
        color := discordGreen
        footer := footer }
  let tomorrowEmbed : Embed :=
    if tomorrow_events ≠ [] then
      { title := "📅 明日の予定 - " ++ tomorrow_str
        color := blurple
        fields := [{ name := "予定"
                     value := truncateField (renderFieldText tomorrow_events)
                     inlined := false }]
        footer := footer }
    else
      { title := "📅 明日の予定 - " ++ tomorrow_str
        description := some "**予定はありません**"
        color := discordGreen
        footer := footer }
  [todayEmbed, tomorrowEmbed]

/-- What the sign-in HTTP call yields: its status code and the value of
`response.cookies.get("_session_id")` (`none` when the cookie is absent). -/
structure LoginResp where
  status : Nat
  session_cookie : Option String
deriving DecidableEq, Repr

/-- Outcome of the sign-in request: a transport error
(`requests.RequestException`) or a response. -/
inductive LoginCall where
  | transportError
  | resp (r : LoginResp)
deriving DecidableEq, Repr

/-- `TimeTreeScraper.login` (timetree_scraper.py lines 54-88), returning
the session id it stores on success. Non-200 status raises `LoginError`;
so does a missing session cookie (`if not self.session_id:` — an
empty-string cookie is falsy too); so does a transport error. -/
def login : LoginCall → Except ScraperErr String
  | .transportError => .error .loginError
  | .resp r =>
    if r.status ≠ 200 then .error .loginError
    else
      match r.session_cookie with
      | none => .error .loginError
      | some sid => if sid = "" then .error .loginError else .ok sid

/-- The typed notifier error (discord_notifier.py lines 10-12). -/
inductive NotifierErr where
  | discordNotifierError
deriving DecidableEq, Repr

/-- Outcome of the webhook POST: a transport error
(`requests.RequestException`) or a response with a status code. -/
inductive PostResult where
  | transportError
  | status (code : Nat)
deriving DecidableEq, Repr

/-- `response.raise_for_status()` raises `requests.HTTPError` — a
`RequestException` — exactly for 4xx and 5xx status codes. -/
def raisesForStatus (code : Nat) : Bool :=
  400 ≤ code && code < 600

/-- The shared tail of the three send methods (discord_notifier.py lines
194-205, 232-243, 263-274): POST, `raise_for_status`, `return True`,
with every `RequestException` rethrown as `DiscordNotifierError`. -/
def postAndCheck (res : PostResult) : Except NotifierErr Bool :=
  match res with
  | .transportError => .error .discordNotifierError
  | .status code =>
    if raisesForStatus code then .error .discordNotifierError else .ok true

/-- The JSON payload of an embeds message: `{"embeds": [...]}`. -/
structure EmbedsPayload where
  embeds : List Embed
deriving DecidableEq, Repr

/-- The JSON payload of a raw message: `{"content": ..., "username": ...}`
with `username` absent when not set. -/
structure RawPayload where
  content : String
  username : Option String
deriving DecidableEq, Repr

/-- `DiscordNotifier.send_daily_notification` (discord_notifier.py lines
175-205). `post` is the webhook's behavior on the posted payload. -/
def send_daily_notification (post : EmbedsPayload → PostResult)
    (today_events tomorrow_events : List Event)
    (current_date tomorrow_date : Instant) : Except NotifierErr Bool :=
  let payload : EmbedsPayload :=
    ⟨create_daily_embeds today_events tomorrow_events current_date tomorrow_date⟩
  postAndCheck (post payload)

/-- `DiscordNotifier.send_events` (discord_notifier.py lines 207-243).
`now` stands for `datetime.now()`. -/
def send_events (post : EmbedsPayload → PostResult) (now : Instant)
    (events : List Event) : Except NotifierErr Bool :=
  let payload : EmbedsPayload :=
    if events = [] then
      ⟨[{ title := "📅 今週のTimeTree予定"
          description := some "予定はありません 🎉"
          color := discordGreen
          footer := footerText now }]⟩
    else ⟨create_embeds now events⟩
  postAndCheck (post payload)

/-- `DiscordNotifier.send_raw` (discord_notifier.py lines 245-274).
`if username:` is a truthiness test, so an empty-string username is not
attached to the payload. -/
def send_raw (post : RawPayload → PostResult) (content : String)
    (username : Option String) : Except NotifierErr Bool :=
  let payload : RawPayload :=
    ⟨content,
     match username with
     | some u => if u ≠ "" then some u else none
     | none => none⟩
  postAndCheck (post payload)

theorem inWindow_iff (ws we : Instant) (e : Event) :
    inWindow ws we e = true ↔
      ∃ s, e.start = some s ∧
        ((ws ≤ s ∧ s < we) ∨
         (e.all_day = true ∧ s ≤ we ∧ ∃ en, e.end_ = some en ∧ ws < en)) := by
  unfold inWindow
  cases hs : e.start with
  | none => simp
  | some s =>
    cases he : e.end_ with
    | none =>
      dsimp only
      split_ifs with h1 h2 <;> simp_all
    | some en =>
      dsimp only
      split_ifs with h1 h2 <;> simp_all

/-- Claim C1: the fetch failure policy is asymmetric. A failed initial
sync call (transport error, non-200 status or unparseable body) makes
`get_events` raise `TimeTreeScraperError`; a successful initial call
never raises, whatever happens later; a failed continuation call is
swallowed and contributes no events; and in the spec's scenario — first
call returns two events with `chunk=true, since=100`, second call
fails — the result is exactly the two events of the first call. -/
theorem C1_failure_asymmetry :
    (∀ rest, get_events .fail rest = .error .scraperError)
    ∧ (∀ d rest, ∃ v, get_events (.ok d) rest = .ok v)
    ∧ (∀ since rest, getEventsRecursive since (.fail :: rest) = ([], [since]))
    ∧ (∀ e1 e2 : RawEvent,
        get_events (.ok { events := [e1, e2], chunk := some true, since := some 100 })
            [.fail]
          = .ok ([normalizeEvent e1, normalizeEvent e2], [some 100])) := by
  refine ⟨fun rest => rfl, fun d rest => ?_, fun since rest => rfl, fun e1 e2 => rfl⟩
  dsimp only [get_events]
  repeat first
  | exact ⟨_, rfl⟩
  | split

/-- Claim C2: the date filter includes an event iff it has a start with
`windowStart ≤ start < windowEnd`, or it is all-day with a start
`≤ windowEnd` and an end strictly after `windowStart`; an event with no
start is never included. -/
theorem C2_window_filter_characterization :
    ∀ (events : List Event) (ws we : Instant) (e : Event),
      e ∈ filterByWindow events ws we ↔
        e ∈ events ∧
          ∃ s, e.start = some s ∧
            ((ws ≤ s ∧ s < we) ∨
             (e.all_day = true ∧ s ≤ we ∧ ∃ en, e.end_ = some en ∧ ws < en)) := by
  intro events ws we e
  rw [filterByWindow, List.mem_filter, inWindow_iff]

/-- Claim C9: applying the window filter twice with the same window is
the same as applying it once. -/
theorem C9_filter_idempotent :
    ∀ (events : List Event) (ws we : Instant),
      filterByWindow (filterByWindow events ws we) ws we
        = filterByWindow events ws we := by
  intro events ws we
  simp [filterByWindow, List.filter_filter]
/-- Claim C3, counterexample: on a rendered text of 1025 characters the
truncation produces 1023 characters (`v[:1020] + "..."` — 1020 kept plus
a 3-character marker), not the 1024 the claim asserts. -/
theorem C3_counterexample :
    (truncateField (String.mk (List.replicate 1025 'a'))).length = 1023 ∧
    (truncateField (String.mk (List.replicate 1025 'a'))).length ≠ 1024 := by
  have hlen : (String.mk (List.replicate 1025 'a')).length = 1025 := by
    show (List.replicate 1025 'a').length = 1025
    rw [List.length_replicate]
  have h : truncateField (String.mk (List.replicate 1025 'a'))
      = String.mk ((List.replicate 1025 'a').take 1020) ++ "..." := by
    unfold truncateField
    rw [if_pos (by rw [hlen]; omega)]
  have h23 : (truncateField (String.mk (List.replicate 1025 'a'))).length = 1023 := by
    rw [h]
    show ((List.replicate 1025 'a').take 1020 ++ ['.', '.', '.']).length = 1023
    rw [List.length_append, List.length_take, List.length_replicate]
    rfl
  exact ⟨h23, by rw [h23]; omega⟩

/-- Claim C3, amended: a rendered text of at most 1024 characters is left
unchanged; a rendered text of more than 1024 characters is replaced by
its first 1020 characters followed by the 3-character ellipsis marker
`"..."`, so the output is exactly 1023 characters (under the 1024 limit)
and ends with the marker. -/
theorem C3_truncation :
    ∀ s : String,
      (s.length ≤ 1024 → truncateField s = s) ∧
      (s.length > 1024 →
        truncateField s = String.mk (s.data.take 1020) ++ "..." ∧
        (truncateField s).length = 1023 ∧
        ∃ t, truncateField s = t ++ "...") := by
  intro s
  constructor
  · intro h
    unfold truncateField
    rw [if_neg (by omega)]
  · intro h
    have ht : truncateField s = String.mk (s.data.take 1020) ++ "..." := by
      unfold truncateField
      rw [if_pos h]
    refine ⟨ht, ?_, ⟨_, ht⟩⟩
    rw [ht]
    cases s with
    | mk l =>
      show (l.take 1020 ++ ['.', '.', '.']).length = 1023
      have hl : l.length > 1024 := h
      simp [List.length_take]
      omega

/-- Witness for C3: the amended theorem evaluated on a 3-character text
(unchanged) and on a 1025-character text (truncated to 1023 characters). -/
theorem C3_truncation_witness :
    truncateField "abc" = "abc" ∧
    (truncateField (String.mk (List.replicate 1025 'a'))).length = 1023 :=
  ⟨(C3_truncation "abc").1 (by decide),
   ((C3_truncation (String.mk (List.replicate 1025 'a'))).2
      (by show (List.replicate 1025 'a').length > 1024
          rw [List.length_replicate]
          omega)).2.1⟩

/-- Claim C4, counterexample: a raw record with `start_at = 0` does NOT
normalize to the epoch instant. The guard `if ev.get("start_at"):` is a
truthiness test and `0` is falsy, so the field is skipped and the
normalized event has `start = None` instead of the epoch instant `0`. -/
theorem C4_counterexample :
    (normalizeEvent { start_at := some (.num 0) }).start = none ∧
    (normalizeEvent { start_at := some (.num 0) }).start ≠ some 0 := by
  constructor
  · rfl
  · intro h
    simp [normalizeEvent, normTs, TsVal.truthy] at h

/-- Claim C4, amended: a raw record with `start_at = 0` (epoch
milliseconds) is treated as having no start — the falsy value fails the
`if ev.get("start_at"):` guard — so it normalizes to `start = None`,
exactly like a record with no `start_at` field; a record with a nonzero
numeric `start_at` of `ms` milliseconds normalizes to the local instant
`ms / 1000` seconds since the epoch (represented here by `ms`). -/
theorem C4_epoch_normalization :
    (∀ ev : RawEvent, ev.start_at = some (.num 0) →
        (normalizeEvent ev).start = none)
    ∧ (∀ ev : RawEvent, ev.start_at = none → (normalizeEvent ev).start = none)
    ∧ (∀ (ev : RawEvent) (ms : Int), ev.start_at = some (.num ms) → ms ≠ 0 →
        (normalizeEvent ev).start = some ms) := by
  refine ⟨fun ev h => ?_, fun ev h => ?_, fun ev ms h hms => ?_⟩
  · simp [normalizeEvent, normTs, h, TsVal.truthy]
  · simp [normalizeEvent, normTs, h]
  · simp [normalizeEvent, normTs, h, TsVal.truthy, TsVal.fromtimestampDiv1000, hms]

/-- Witness for C4: the amended theorem evaluated at records with
`start_at = 0`, no `start_at`, and `start_at = 5000`. -/
theorem C4_epoch_normalization_witness :
    (normalizeEvent { start_at := some (.num 0) }).start = none
    ∧ (normalizeEvent {}).start = none
    ∧ (normalizeEvent { start_at := some (.num 5000) }).start = some 5000 :=
  ⟨C4_epoch_normalization.1 _ rfl,
   C4_epoch_normalization.2.1 _ rfl,
   C4_epoch_normalization.2.2 _ 5000 rfl (by decide)⟩

/-- Claim C5: sign-in succeeds only with HTTP 200 plus a session cookie;
HTTP 200 with no session cookie raises `LoginError`, as do a non-200
status and a transport error. -/
theorem C5_login_requires_status_and_cookie :
    (∀ r sid, login (.resp r) = .ok sid →
        r.status = 200 ∧ ∃ c, r.session_cookie = some c)
    ∧ (∀ r, r.status = 200 → r.session_cookie = none →
        login (.resp r) = .error .loginError)
    ∧ (∀ r, r.status ≠ 200 → login (.resp r) = .error .loginError)
    ∧ login .transportError = .error .loginError := by
  refine ⟨fun r sid h => ?_, fun r h hc => ?_, fun r h => ?_, rfl⟩
  · simp only [login] at h
    by_cases hst : r.status ≠ 200
    · rw [if_pos hst] at h; cases h
    · rw [if_neg hst] at h
      cases hc : r.session_cookie with
      | none => rw [hc] at h; cases h
      | some c => exact ⟨by omega, c, rfl⟩
  · simp only [login]
    rw [if_neg (by omega), hc]
  · simp only [login]
    rw [if_pos h]

/-- Witness for C5: the theorem evaluated on a 200-with-cookie success,
a 200-without-cookie failure, and a 404 failure. -/
theorem C5_login_witness :
    (({ status := 200, session_cookie := some "tok" } : LoginResp).status = 200
      ∧ ∃ c, ({ status := 200, session_cookie := some "tok" } : LoginResp).session_cookie
          = some c)
    ∧ login (.resp { status := 200, session_cookie := none }) = .error .loginError
    ∧ login (.resp { status := 404, session_cookie := some "tok" })
        = .error .loginError :=
  ⟨C5_login_requires_status_and_cookie.1 _ "tok" rfl,
   C5_login_requires_status_and_cookie.2.1 _ rfl rfl,
   C5_login_requires_status_and_cookie.2.2.1 _ (by decide)⟩

/-- Claim C7: a malformed timestamp field never aborts normalization —
the field becomes `None` while every other field of the record is still
normalized, and every other record of the batch is normalized unchanged
(the model is total by construction because the `try`/`except` around
`fromtimestamp` is part of `normTs`). -/
theorem C7_malformed_timestamp_is_local :
    (∀ ev : RawEvent, ev.start_at = some .malformed →
        (normalizeEvent ev).start = none
        ∧ (normalizeEvent ev).end_ = normTs ev.end_at
        ∧ (normalizeEvent ev).id = ev.id
        ∧ (normalizeEvent ev).title = ev.title.getD "Untitled"
        ∧ (normalizeEvent ev).all_day = ev.all_day.getD false
        ∧ (normalizeEvent ev).location = ev.location
        ∧ (normalizeEvent ev).description = ev.note
        ∧ (normalizeEvent ev).color = ev.label_id)
    ∧ (∀ ev : RawEvent, ev.end_at = some .malformed → (normalizeEvent ev).end_ = none)
    ∧ (∀ (pre post : List RawEvent) (ev : RawEvent),
        normalizeBatch (pre ++ ev :: post)
          = normalizeBatch pre ++ normalizeEvent ev :: normalizeBatch post) := by
  refine ⟨fun ev h => ?_, fun ev h => ?_, fun pre post ev => ?_⟩
  · exact ⟨by simp [normalizeEvent, normTs, h, TsVal.truthy, TsVal.fromtimestampDiv1000],
           rfl, rfl, rfl, rfl, rfl, rfl, rfl⟩
  · simp [normalizeEvent, normTs, h, TsVal.truthy, TsVal.fromtimestampDiv1000]
  · simp [normalizeBatch]

/-- Witness for C7: the theorem evaluated on a two-record batch whose
first record has a malformed `start_at` and a well-formed `end_at`. -/
theorem C7_malformed_witness :
    (normalizeEvent { title := some "X", start_at := some .malformed,
                      end_at := some (.num 7000) }).start = none
    ∧ (normalizeEvent { title := some "X", start_at := some .malformed,
                        end_at := some (.num 7000) }).end_
        = normTs (some (.num 7000))
    ∧ (normalizeEvent { end_at := some .malformed }).end_ = none
    ∧ normalizeBatch ([] ++ { start_at := some .malformed } :: [{ id := some "b" }])
        = normalizeBatch []
            ++ normalizeEvent { start_at := some .malformed }
              :: normalizeBatch [{ id := some "b" }] :=
  ⟨(C7_malformed_timestamp_is_local.1 _ rfl).1,
   (C7_malformed_timestamp_is_local.1 _ rfl).2.1,
   C7_malformed_timestamp_is_local.2.1 _ rfl,
   C7_malformed_timestamp_is_local.2.2 [] [{ id := some "b" }] _⟩

theorem getEventsRecursive_trace_ne_nil (since : Option Int) (resps : List SyncResp) :
    (getEventsRecursive since resps).2 ≠ [] := by
  cases resps with
  | nil => simp [getEventsRecursive]
  | cons head tail =>
    cases head with
    | fail => simp [getEventsRecursive]
    | ok d =>
      dsimp only [getEventsRecursive]
      split_ifs <;> simp

/-- Claim C6, counterexample: after an initial response with
`chunk=true, since=100`, the first continuation response has
`chunk=true` but NO `since` cursor — yet a further call is still
issued, with cursor `None` (`_get_events_recursive` checks only
`data.get("chunk") is True` and never the cursor). The trace of issued
continuation cursors is `[some 100, none]`, not the `[some 100]` the
claim's iff-condition predicts. -/
theorem C6_counterexample :
    get_events (.ok { chunk := some true, since := some 100 })
        [.ok { chunk := some true, since := none }, .ok {}]
      = .ok ([], [some 100, none]) ∧
    ([some 100, none] : List (Option Int)) ≠ [some 100] := by
  exact ⟨rfl, by decide⟩

/-- Claim C6, amended: the initial sync response triggers a continuation
call iff it has `chunk == true` and a truthy `since` cursor (present and
nonzero), which becomes the first cursor of the trace. Each continuation
response triggers a further call iff it has `chunk == true` — its
`since` value is passed along as the next cursor even when it is absent
— and fetching stops when a response lacks the flag or a call fails. -/
theorem C6_continuation_condition :
    (∀ d rest, (∃ v, get_events (.ok d) rest = .ok v ∧ v.2 ≠ []) ↔
        d.chunk = some true ∧ ∃ s, d.since = some s ∧ s ≠ 0)
    ∧ (∀ d rest s, (∃ v, get_events (.ok d) rest = .ok v ∧ v.2.head? = some (some s)) ↔
        d.chunk = some true ∧ d.since = some s ∧ s ≠ 0)
    ∧ (∀ since d rest,
        (getEventsRecursive since (.ok d :: rest)).2
          = if d.chunk = some true then since :: (getEventsRecursive d.since rest).2
            else [since])
    ∧ (∀ since rest, (getEventsRecursive since (.fail :: rest)).2 = [since]) := by
  have htrace : ∀ (since : Option Int) (d : SyncData) (rest : List SyncResp),
      (getEventsRecursive since (.ok d :: rest)).2
        = if d.chunk = some true then since :: (getEventsRecursive d.since rest).2
          else [since] := by
    intro since d rest
    dsimp only [getEventsRecursive]
    split_ifs with h <;> rfl
  refine ⟨fun d rest => ?_, fun d rest s => ?_, htrace, fun since rest => rfl⟩
  · dsimp only [get_events]
    by_cases hc : d.chunk = some true
    · rw [if_pos hc]
      cases hs : d.since with
      | none => simp [hc, hs]
      | some s =>
        dsimp only
        by_cases hz : s = 0
        · subst hz
          rw [if_neg (by simp)]
          simp [hc, hs]
        · rw [if_pos hz]
          simp only [hc, hs, true_and]
          constructor
          · intro _
            exact ⟨s, rfl, hz⟩
          · intro _
            exact ⟨_, rfl, by
              cases hhead : (getEventsRecursive (some s) rest).2 with
              | nil => exact absurd hhead (getEventsRecursive_trace_ne_nil _ _)
              | cons a l => simp⟩
    · rw [if_neg hc]
      simp [hc]
  · dsimp only [get_events]
    by_cases hc : d.chunk = some true
    · rw [if_pos hc]
      cases hs : d.since with
      | none => simp [hc, hs]
      | some s0 =>
        dsimp only
        by_cases hz : s0 = 0
        · subst hz
          rw [if_neg (by simp)]
          simp [hc, hs]
          omega
        · rw [if_pos hz]
          have hhd : (getEventsRecursive (some s0) rest).2.head? = some (some s0) := by
            cases rest with
            | nil => rfl
            | cons r rtail =>
              cases r with
              | fail => rfl
              | ok d2 =>
                rw [htrace]
                split_ifs <;> rfl
          simp only [hc, hs, true_and]
          constructor
          · intro ⟨v, hv, hh⟩
            cases hv
            rw [hhd] at hh
            cases hh
            exact ⟨rfl, hz⟩
          · intro ⟨hss, _⟩
            cases hss
            exact ⟨_, rfl, hhd⟩
    · rw [if_neg hc]
      simp [hc]

/-- Claim C8: the daily digest is exactly two blocks, today then
tomorrow, each branched independently of the other: a populated list
yields the accent color (blurple) and one field of rendered event lines,
an empty list yields the success color (green) and the no-events
description; and in the spec's scenario — no events today, a 09:00-09:30
"Standup" tomorrow — the payload carries the empty-state block for today
and the single rendered line `"• 09:00 - 09:30 Standup"` for tomorrow. -/
theorem C8_daily_digest :
    (∀ (te tm : List Event) (cd td : Instant),
      create_daily_embeds te tm cd td =
        [{ title := "📅 今日の予定 - " ++ format_date cd
           description := if te = [] then some "**予定はありません**" else none
           color := if te = [] then discordGreen else blurple
           fields := if te = [] then []
                     else [{ name := "予定", value := truncateField (renderFieldText te),
                             inlined := false }]
           footer := footerText cd },
         { title := "📅 明日の予定 - " ++ format_date td
           description := if tm = [] then some "**予定はありません**" else none
           color := if tm = [] then discordGreen else blurple
           fields := if tm = [] then []
                     else [{ name := "予定", value := truncateField (renderFieldText tm),
                             inlined := false }]
           footer := footerText cd }])
    ∧ (create_daily_embeds []
          [{ title := "Standup", start := some 32400000, end_ := some 34200000 }]
          0 86400000
        |>.map (fun b => (b.color, b.description, b.fields.map (fun f => f.value))))
        = [(discordGreen, some "**予定はありません**", []),
           (blurple, none, ["• 09:00 - 09:30 Standup"])] := by
  constructor
  · intro te tm cd td
    dsimp only [create_daily_embeds]
    by_cases hte : te = [] <;> by_cases htm : tm = [] <;> simp [hte, htm]
  · decide

/-- Every branch of `postAndCheck` is `ok true` or the typed error. -/
theorem postAndCheck_ok_or_error (res : PostResult) :
    postAndCheck res = .ok true ∨ postAndCheck res = .error .discordNotifierError := by
  cases res with
  | transportError => exact .inr rfl
  | status code =>
    dsimp only [postAndCheck]
    split_ifs
    · exact .inr rfl
    · exact .inl rfl

/-- Claim C10: each of the three webhook send operations either returns
`True` or raises `DiscordNotifierError`; in particular none of them can
return `False` despite their boolean interface. -/
theorem C10_send_true_or_raises :
    (∀ post te tm cd td,
        send_daily_notification post te tm cd td = .ok true
        ∨ send_daily_notification post te tm cd td = .error .discordNotifierError)
    ∧ (∀ post now events,
        send_events post now events = .ok true
        ∨ send_events post now events = .error .discordNotifierError)
    ∧ (∀ post content username,
        send_raw post content username = .ok true
        ∨ send_raw post content username = .error .discordNotifierError) :=
  ⟨fun _ _ _ _ _ => postAndCheck_ok_or_error _,
   fun _ _ _ => postAndCheck_ok_or_error _,
   fun _ _ _ => postAndCheck_ok_or_error _⟩

